import Mathlib

/-!
Verification development for the Legion research-mission orchestrator.

The repository ships a React frontend (`legion-frontend/src`, embedded below from
its JavaScript sources) and documents a Python backend (`legion_adk`: the phase
state machine, the A2A task/response protocol and the mission state store) whose
implementation files are not part of this snapshot; those parts are modelled
faithfully from the specification text, as marked on each definition.
-/

namespace Legion

/-! ## Phase state machine (Mission Orchestrator)

Modelled from the spec, section 4.5: the backend module `orchestration/adk_workflow.py`
is not in the snapshot.  States `planning → collecting → analyzing → creating →
completed` with a parallel terminal `failed` reachable from any state.
-/

inductive Phase
  | planning
  | collecting
  | analyzing
  | creating
  | completed
  | failed
deriving DecidableEq, Repr

/-- Position of a phase in the fixed forward sequence; `failed` sits last so that
a jump to `failed` from anywhere is a forward move. -/
def Phase.rank : Phase → Nat
  | .planning => 0
  | .collecting => 1
  | .analyzing => 2
  | .creating => 3
  | .completed => 4
  | .failed => 5

def Phase.isTerminal : Phase → Bool
  | .completed => true
  | .failed => true
  | _ => false

inductive QStatus
  | pending
  | collecting
  | done
  | failed
deriving DecidableEq, Repr

def QStatus.isTerminal : QStatus → Bool
  | .done => true
  | .failed => true
  | _ => false

/-- Modelled from the spec, section 3: a Question has an id, text, a status and,
once collection succeeded, a collected result. -/
structure Question where
  id : Nat
  text : String
  status : QStatus
  result : Option String
deriving DecidableEq, Repr

/-- Modelled from the spec, sections 3 and 4.5: the Mission record held by the
State Store (`services/state_manager.py`, not in the snapshot), restricted to the
fields the claims need. -/
structure Mission where
  phase : Phase
  questions : List Question
  collected : List String
  deliverables : List String
  failReason : Option String
deriving DecidableEq, Repr

/-- An externally visible action of one orchestrator transition: a State Store
mutation, an Event Bus publication, or an A2A task dispatch. -/
inductive Act
  | write (desc : String)
  | publish (desc : String)
  | dispatch (role : String) (taskType : String)
deriving DecidableEq, Repr

/-- The commands that drive a mission: user approval and refinement, per-question
collection outcomes, phase-completion signals and cancellation. -/
inductive Cmd
  | refinePlan
  | approvePlan
  | questionDone (qid : Nat) (result : String)
  | questionFailed (qid : Nat)
  | finishCollecting
  | analyzeOk
  | analyzeFailed
  | createOk (deliverable : String)
  | createFailed
  | cancel
deriving DecidableEq, Repr

def allQuestionsTerminal (qs : List Question) : Bool :=
  qs.all (fun q => q.status.isTerminal)

def anyQuestionDone (qs : List Question) : Bool :=
  qs.any (fun q => q.status = QStatus.done)

/-- The successfully collected payloads, in question order. -/
def doneResults (qs : List Question) : List String :=
  (qs.filter (fun q => q.status = QStatus.done)).filterMap (fun q => q.result)

def setQuestion (qs : List Question) (qid : Nat) (st : QStatus) (res : Option String) :
    List Question :=
  qs.map (fun q => if q.id = qid then { q with status := st, result := res } else q)

/-- Modelled from the spec, sections 4.5, 5 and 7: one transition of the Phase
State Machine.  Returns `none` for an `InvalidTransition` (section 7: rejected
without side effect).  Every permitted transition records its mutation in the
State Store strictly before publishing the matching event (section 4.5:
write-then-publish), and a terminal mission (`completed`/`failed`) admits no
further transition. -/
def stepM (m : Mission) (c : Cmd) : Option (List Act × Mission) :=
  match c with
  | .refinePlan =>
    if m.phase = Phase.planning then
      some ([Act.dispatch "CONSUL" "refine_plan",
             Act.write "plan_updated", Act.publish "plan_updated"], m)
    else none
  | .approvePlan =>
    if m.phase = Phase.planning then
      some ((m.questions.map (fun _ => Act.dispatch "CENTURION" "collect_data"))
              ++ [Act.write "phase_changed_collecting", Act.publish "phase_changed_collecting"],
            { m with phase := Phase.collecting,
                     questions := m.questions.map (fun q => { q with status := QStatus.collecting }) })
    else none
  | .questionDone qid res =>
    if m.phase = Phase.collecting then
      some ([Act.write "question_completed", Act.publish "question_completed"],
            { m with questions := setQuestion m.questions qid QStatus.done (some res) })
    else none
  | .questionFailed qid =>
    if m.phase = Phase.collecting then
      some ([Act.write "question_failed", Act.publish "question_failed"],
            { m with questions := setQuestion m.questions qid QStatus.failed none })
    else none
  | .finishCollecting =>
    if m.phase = Phase.collecting ∧ allQuestionsTerminal m.questions = true then
      if anyQuestionDone m.questions = true then
        some ([Act.write "phase_changed_analyzing", Act.publish "phase_changed_analyzing",
               Act.dispatch "AUGUR" "analyze"],
              { m with phase := Phase.analyzing, collected := doneResults m.questions })
      else
        some ([Act.write "mission_failed", Act.publish "mission_failed"],
              { m with phase := Phase.failed, failReason := some "no_data_collected" })
    else none
  | .analyzeOk =>
    if m.phase = Phase.analyzing then
      some ([Act.write "phase_changed_creating", Act.publish "phase_changed_creating",
             Act.dispatch "SCRIBE" "create_deliverable"],
            { m with phase := Phase.creating })
    else none
  | .analyzeFailed =>
    if m.phase = Phase.analyzing then
      some ([Act.write "mission_failed", Act.publish "mission_failed"],
            { m with phase := Phase.failed, failReason := some "analysis_failed" })
    else none
  | .createOk d =>
    if m.phase = Phase.creating then
      some ([Act.write "deliverable_ready", Act.publish "deliverable_ready",
             Act.write "phase_changed_completed", Act.publish "phase_changed_completed"],
            { m with phase := Phase.completed, deliverables := m.deliverables ++ [d] })
    else none
  | .createFailed =>
    if m.phase = Phase.creating then
      some ([Act.write "mission_failed", Act.publish "mission_failed"],
            { m with phase := Phase.failed, failReason := some "no_deliverables_created" })
    else none
  | .cancel =>
    if m.phase.isTerminal = true then none
    else
      some ([Act.write "mission_failed", Act.publish "mission_failed"],
            { m with phase := Phase.failed, failReason := some "cancelled" })

/-- Modelled from the spec, section 7: an `InvalidTransition` command is rejected
without side effect, so applying any command is total. -/
def applyCmd (m : Mission) (c : Cmd) : List Act × Mission :=
  match stepM m c with
  | none => ([], m)
  | some p => p

/-- Run a whole execution: apply a command sequence, accumulating the action
trace.  Every reachable execution of the orchestrator is `runCmds` on some
command list. -/
def runCmds (m : Mission) : List Cmd → List Act × Mission
  | [] => ([], m)
  | c :: cs =>
    let p := applyCmd m c
    let r := runCmds p.2 cs
    (p.1 ++ r.1, r.2)

lemma Phase.rank_le_five (p : Phase) : p.rank ≤ 5 := by
  cases p <;> simp [Phase.rank]

lemma rank_le_stepM {m : Mission} {c : Cmd} {p : List Act × Mission}
    (h : stepM m c = some p) : m.phase.rank ≤ p.2.phase.rank := by
  cases c <;> simp only [stepM] at h <;> (repeat' split at h) <;>
    (try simp only [Option.some.injEq] at h) <;> (try subst h) <;>
    (simp_all [Phase.rank, Phase.rank_le_five]; all_goals (cases m.phase <;> simp))

lemma rank_le_applyCmd (m : Mission) (c : Cmd) :
    m.phase.rank ≤ (applyCmd m c).2.phase.rank := by
  rcases h : stepM m c with _ | p <;> simp [applyCmd, h]
  exact rank_le_stepM h

lemma rank_le_runCmds (m : Mission) (cs : List Cmd) :
    m.phase.rank ≤ (runCmds m cs).2.phase.rank := by
  induction cs generalizing m with
  | nil => simp [runCmds]
  | cons c cs ih =>
    simp only [runCmds]
    exact le_trans (rank_le_applyCmd m c) (ih (applyCmd m c).2)

/-- C1: in every execution, the mission phase only moves forward through the
fixed sequence planning, collecting, analyzing, creating, completed, or jumps to
the terminal failed state; it never returns to an earlier phase. -/
theorem phase_never_regresses (m : Mission) (cs : List Cmd) :
    (runCmds m cs).2.phase = Phase.failed ∨
      m.phase.rank ≤ (runCmds m cs).2.phase.rank :=
  Or.inr (rank_le_runCmds m cs)

/-! ## Collecting-phase completion (C2) -/

lemma applyCmd_failed {m : Mission} (h : m.phase = Phase.failed) (c : Cmd) :
    applyCmd m c = ([], m) := by
  cases c <;> simp [applyCmd, stepM, h, Phase.isTerminal]

lemma runCmds_failed {m : Mission} (h : m.phase = Phase.failed) (cs : List Cmd) :
    runCmds m cs = ([], m) := by
  induction cs with
  | nil => simp [runCmds]
  | cons c cs ih => simp [runCmds, applyCmd_failed h, ih]

/-- No action of the list is an A2A dispatch of the `analyze` task to AUGUR. -/
def noAnalyzeDispatch (acts : List Act) : Bool :=
  acts.all (fun a => a ≠ Act.dispatch "AUGUR" "analyze")

/-- C2: in the collecting phase, the phase can reach `analyzing` only once every
Question is terminal with at least one `done`; with at least one `done` the
completion step advances to `analyzing` carrying exactly the successful results
and leaving every Question record (in particular each individually `failed` one)
as it was; with zero `done` it instead moves to `failed` with reason
`no_data_collected`, and no continuation of that execution ever dispatches the
analyze task. -/
theorem collecting_advance_spec (m : Mission) (h : m.phase = Phase.collecting) :
    (∀ c : Cmd, (applyCmd m c).2.phase = Phase.analyzing →
      allQuestionsTerminal m.questions = true ∧ anyQuestionDone m.questions = true)
    ∧ (allQuestionsTerminal m.questions = true → anyQuestionDone m.questions = true →
        (applyCmd m Cmd.finishCollecting).2.phase = Phase.analyzing
        ∧ (applyCmd m Cmd.finishCollecting).2.collected = doneResults m.questions
        ∧ (applyCmd m Cmd.finishCollecting).2.questions = m.questions)
    ∧ (allQuestionsTerminal m.questions = true → anyQuestionDone m.questions = false →
        (applyCmd m Cmd.finishCollecting).2.phase = Phase.failed
        ∧ (applyCmd m Cmd.finishCollecting).2.failReason = some "no_data_collected"
        ∧ ∀ cs : List Cmd,
            noAnalyzeDispatch (runCmds m (Cmd.finishCollecting :: cs)).1 = true) := by
  refine ⟨?_, ?_, ?_⟩
  · intro c hc
    cases c <;>
      (try (cases hT : allQuestionsTerminal m.questions <;>
            cases hD : anyQuestionDone m.questions)) <;>
      simp_all [applyCmd, stepM, Phase.isTerminal]
  · intro hT hD
    simp [applyCmd, stepM, h, hT, hD]
  · intro hT hD
    have hstep : applyCmd m Cmd.finishCollecting =
        ([Act.write "mission_failed", Act.publish "mission_failed"],
         { m with phase := Phase.failed, failReason := some "no_data_collected" }) := by
      simp [applyCmd, stepM, h, hT, hD]
    refine ⟨by simp [hstep], by simp [hstep], ?_⟩
    intro cs
    have hrun : runCmds { m with phase := Phase.failed, failReason := some "no_data_collected" } cs
        = ([], { m with phase := Phase.failed, failReason := some "no_data_collected" }) :=
      runCmds_failed rfl cs
    simp [runCmds, hstep, hrun, noAnalyzeDispatch]

/-- A concrete mission in the collecting phase with one successful and one
failed Question. -/
def mColl : Mission :=
  { phase := Phase.collecting,
    questions := [{ id := 1, text := "q1", status := QStatus.done, result := some "r1" },
                  { id := 2, text := "q2", status := QStatus.failed, result := none }],
    collected := [], deliverables := [], failReason := none }

/-- Witness for C2: a mission with one done and one failed Question advances to
`analyzing` with exactly the one successful result. -/
theorem collecting_advance_spec_witness :
    (applyCmd mColl Cmd.finishCollecting).2.phase = Phase.analyzing
    ∧ (applyCmd mColl Cmd.finishCollecting).2.collected = doneResults mColl.questions :=
  ⟨((collecting_advance_spec mColl rfl).2.1 rfl rfl).1,
   ((collecting_advance_spec mColl rfl).2.1 rfl rfl).2.1⟩

/-! ## A2A protocol layer (C3, C5, C6)

Modelled from the spec, sections 3, 4.3 and 5: the backend module
`services/adk_communication.py` is not in the snapshot.
-/

inductive TaskStatus
  | dispatched
  | completed
  | failed
  | timedOut
deriving DecidableEq, Repr

/-- A Task stops being in flight once any terminal status is recorded. -/
def TaskStatus.isResolved : TaskStatus → Bool
  | .dispatched => false
  | _ => true

/-- Modelled from the spec, section 3: a Response carries the originating task id,
a completed/failed status, a payload and an error present iff failed. -/
structure RespMsg where
  taskId : String
  ok : Bool
  payload : String
  error : Option String
deriving DecidableEq, Repr

/-- Modelled from the spec, section 3: the immutable part of an A2A Task. -/
structure A2ATask where
  id : String
  fromRole : String
  toRole : String
  taskType : String
deriving DecidableEq, Repr

/-- The A2A layer's bookkeeping: per-task status and the recorded results. -/
structure A2AState where
  tasks : List (String × TaskStatus)
  results : List (String × RespMsg)
deriving DecidableEq, Repr

/-- Modelled from the spec, section 4.3: `resolve(task_id, Response)`.  An unknown
or already-resolved id is a no-op; a pending id records the Response and marks the
Task completed or failed. -/
def resolve (st : A2AState) (tid : String) (r : RespMsg) : A2AState :=
  match st.tasks.lookup tid with
  | none => st
  | some ts =>
    if ts.isResolved then st
    else
      { tasks := st.tasks.map (fun p =>
          if p.1 = tid then (p.1, if r.ok then TaskStatus.completed else TaskStatus.failed) else p),
        results := (tid, r) :: st.results }

lemma lookup_map_update (l : List (String × TaskStatus)) (tid : String) (v : TaskStatus) :
    (l.map (fun p => if p.1 = tid then (p.1, v) else p)).lookup tid
      = (l.lookup tid).map (fun _ => v) := by
  induction l with
  | nil => simp
  | cons p l ih =>
    rcases p with ⟨k, w⟩
    by_cases hp : k = tid
    · subst hp
      simp [List.lookup_cons, ih]
    · have hne : (tid == k) = false := beq_eq_false_iff_ne.mpr (Ne.symm hp)
      simp [List.lookup_cons, hp, hne, ih]

lemma resolve_noop_of_resolved {st : A2AState} {tid : String} {v : TaskStatus}
    (h : st.tasks.lookup tid = some v) (hv : v.isResolved = true) (r : RespMsg) :
    resolve st tid r = st := by
  simp [resolve, h, hv]

/-- C3: `resolve` is idempotent.  Resolving the same task id a second time (with
any response) leaves the state exactly as after the first call, and resolving an
id the layer does not know is a no-op. -/
theorem resolve_idempotent (st : A2AState) (tid tid2 : String) (r r2 : RespMsg)
    (hu : st.tasks.lookup tid2 = none) :
    resolve (resolve st tid r) tid r2 = resolve st tid r
    ∧ resolve st tid2 r = st := by
  constructor
  · rcases hl : st.tasks.lookup tid with _ | ts
    · simp [resolve, hl]
    · by_cases hres : ts.isResolved = true
      · simp [resolve, hl, hres]
      · have h1 : resolve st tid r =
            { tasks := st.tasks.map (fun p =>
                if p.1 = tid then (p.1, if r.ok then TaskStatus.completed else TaskStatus.failed) else p),
              results := (tid, r) :: st.results } := by
          simp [resolve, hl, hres]
        have h2 : (resolve st tid r).tasks.lookup tid
            = some (if r.ok then TaskStatus.completed else TaskStatus.failed) := by
          rw [h1]
          simp [lookup_map_update, hl]
        have hv : (if r.ok then TaskStatus.completed else TaskStatus.failed).isResolved
            = true := by
          cases hr : r.ok <;> simp [hr, TaskStatus.isResolved]
        exact resolve_noop_of_resolved h2 hv r2
  · simp [resolve, hu]

/-- A concrete A2A state with one in-flight task, and concrete responses. -/
def stA2A : A2AState :=
  { tasks := [("t1", TaskStatus.dispatched)], results := [] }

def respOkEx : RespMsg := { taskId := "t1", ok := true, payload := "data", error := none }

def respFailEx : RespMsg :=
  { taskId := "t1", ok := false, payload := "", error := some "boom" }

/-- Witness for C3: resolving task `t1` twice equals resolving it once, and
resolving the unknown id `t9` changes nothing. -/
theorem resolve_idempotent_witness :
    stA2A.tasks.lookup "t9" = none
    ∧ (resolve (resolve stA2A "t1" respOkEx) "t1" respFailEx = resolve stA2A "t1" respOkEx
       ∧ resolve stA2A "t9" respOkEx = stA2A) :=
  ⟨by decide, resolve_idempotent stA2A "t1" "t9" respOkEx respFailEx (by decide)⟩

/-! ## Await with timeout (C5) -/

/-- Modelled from the spec, sections 3 and 4.3: the Response the A2A layer
synthesizes for a Task whose Response never arrived before the timeout. -/
def synthTimedOut (t : A2ATask) : RespMsg :=
  { taskId := t.id, ok := false, payload := "", error := some "timed_out" }

/-- Modelled from the spec, section 4.3: `await(handle, timeout)`.  `arrival` is
the Response delivered before the timeout elapsed, if any; on timeout the layer
synthesizes a failed Response and marks the Task `timed_out`. -/
def awaitTask (t : A2ATask) (arrival : Option RespMsg) : RespMsg × TaskStatus :=
  match arrival with
  | some r => (r, if r.ok then TaskStatus.completed else TaskStatus.failed)
  | none => (synthTimedOut t, TaskStatus.timedOut)

/-- Modelled from the spec, sections 4.3 and 7: the Orchestrator classifies a
Response as a failure exactly when its status is not `completed`. -/
def treatedAsFailure (r : RespMsg) : Bool := !r.ok

/-- C5: a dispatched Task whose Response has not arrived when the timeout
elapses always gets a synthesized Response for its own id with failed status and
a `timed_out` error, the Task is marked `timed_out`, and the Orchestrator's
failure classification of this outcome coincides with that of any explicitly
failed Response. -/
theorem await_timeout_synthesizes_failure (t : A2ATask) (r : RespMsg)
    (hr : r.ok = false) :
    (awaitTask t none).1.taskId = t.id
    ∧ (awaitTask t none).1.ok = false
    ∧ (awaitTask t none).1.error = some "timed_out"
    ∧ (awaitTask t none).2 = TaskStatus.timedOut
    ∧ treatedAsFailure (awaitTask t none).1 = treatedAsFailure r
    ∧ treatedAsFailure (awaitTask t none).1 = true := by
  simp [awaitTask, synthTimedOut, treatedAsFailure, hr]

def taskEx : A2ATask :=
  { id := "t1", fromRole := "CONSUL", toRole := "CENTURION", taskType := "collect_data" }

/-- Witness for C5 at a concrete task and a concrete explicitly failed
Response. -/
theorem await_timeout_synthesizes_failure_witness :
    respFailEx.ok = false
    ∧ ((awaitTask taskEx none).1.taskId = taskEx.id
       ∧ (awaitTask taskEx none).1.ok = false
       ∧ (awaitTask taskEx none).1.error = some "timed_out"
       ∧ (awaitTask taskEx none).2 = TaskStatus.timedOut
       ∧ treatedAsFailure (awaitTask taskEx none).1 = treatedAsFailure respFailEx
       ∧ treatedAsFailure (awaitTask taskEx none).1 = true) :=
  ⟨rfl, await_timeout_synthesizes_failure taskEx respFailEx rfl⟩

/-! ## Cancellation discards late Responses (C6) -/

/-- A mission is cancelled when it failed with the `cancelled` reason. -/
def Mission.cancelled (m : Mission) : Bool := m.failReason = some "cancelled"

/-- Modelled from the spec, section 5 (Cancellation): delivery of an in-flight
collection Task's late Response into the mission.  On a cancelled mission it is
discarded as a no-op (an `ok` result, not an error); otherwise it is recorded
against the matching Question through the ordinary state machine. -/
def deliverLateResponse (m : Mission) (qid : Nat) (r : RespMsg) :
    Except String Mission :=
  if m.cancelled then Except.ok m
  else Except.ok (applyCmd m
    (if r.ok then Cmd.questionDone qid r.payload else Cmd.questionFailed qid)).2

/-- C6: after a mission is cancelled, every late-arriving Response is discarded:
delivering it returns `ok` with the mission state exactly unchanged. -/
theorem resolve_cancelled_noop (m : Mission) (qid : Nat) (r : RespMsg)
    (h : m.cancelled = true) :
    deliverLateResponse m qid r = Except.ok m := by
  simp [deliverLateResponse, h]

/-- A mission in the collecting phase with one in-flight Question. -/
def mFlight : Mission :=
  { phase := Phase.collecting,
    questions := [{ id := 1, text := "q1", status := QStatus.collecting, result := none }],
    collected := [], deliverables := [], failReason := none }

/-- Witness for C6: cancelling `mFlight` while its Task is in flight yields a
cancelled mission, and a late Response delivered afterwards changes nothing. -/
theorem resolve_cancelled_noop_witness :
    ((applyCmd mFlight Cmd.cancel).2.cancelled = true)
    ∧ deliverLateResponse (applyCmd mFlight Cmd.cancel).2 1 respOkEx
        = Except.ok (applyCmd mFlight Cmd.cancel).2 :=
  ⟨by decide, resolve_cancelled_noop (applyCmd mFlight Cmd.cancel).2 1 respOkEx (by decide)⟩

/-! ## Write-then-publish ordering (C4) -/

/-- The State Store mutations recorded by an action trace, most recent first, on
top of the previously recorded mutations `ws`. -/
def recordedWrites (ws : List String) : List Act → List String
  | [] => ws
  | (Act.write d) :: rest => recordedWrites (d :: ws) rest
  | (Act.publish _) :: rest => recordedWrites ws rest
  | (Act.dispatch _ _) :: rest => recordedWrites ws rest

/-- Holds when every event published in the trace has its backing State Store
mutation recorded strictly before the publication (`ws` lists the mutations
already recorded before the trace starts). -/
def backed (ws : List String) : List Act → Bool
  | [] => true
  | (Act.write d) :: rest => backed (d :: ws) rest
  | (Act.publish d) :: rest => ws.contains d && backed ws rest
  | (Act.dispatch _ _) :: rest => backed ws rest

lemma backed_append (xs ys : List Act) :
    ∀ ws, backed ws (xs ++ ys)
      = (backed ws xs && backed (recordedWrites ws xs) ys) := by
  induction xs with
  | nil => intro ws; simp [backed, recordedWrites]
  | cons a xs ih =>
    intro ws
    cases a <;> simp [backed, recordedWrites, ih, Bool.and_assoc]

lemma backed_dispatch_replicate (n : Nat) (ws : List String) :
    backed ws (List.replicate n (Act.dispatch "CENTURION" "collect_data")) = true
    ∧ recordedWrites ws (List.replicate n (Act.dispatch "CENTURION" "collect_data"))
        = ws := by
  induction n with
  | zero => simp [backed, recordedWrites]
  | succ n ih => simpa [backed, recordedWrites, List.replicate_succ] using ih

lemma backed_stepM {m : Mission} {c : Cmd} {p : List Act × Mission}
    (h : stepM m c = some p) : ∀ ws, backed ws p.1 = true := by
  cases c <;> simp only [stepM] at h <;> (repeat' split at h) <;>
    (try simp only [Option.some.injEq] at h) <;> (try subst h) <;>
    (try simp_all) <;> intro ws <;>
    simp [backed_append, backed, backed_dispatch_replicate]

lemma backed_applyCmd (m : Mission) (c : Cmd) (ws : List String) :
    backed ws (applyCmd m c).1 = true := by
  rcases h : stepM m c with _ | p <;> simp [applyCmd, h, backed]
  exact backed_stepM h ws

lemma backed_runCmds (cs : List Cmd) :
    ∀ (m : Mission) (ws : List String), backed ws (runCmds m cs).1 = true := by
  induction cs with
  | nil => intro m ws; simp [runCmds, backed]
  | cons c cs ih =>
    intro m ws
    simp only [runCmds, backed_append]
    rw [backed_applyCmd, ih]
    simp

/-- C4: in every execution, every event published to the Event Bus has its
backing State Store mutation recorded strictly earlier in the trace — the
orchestrator writes then publishes, never the reverse. -/
theorem events_write_then_publish (m : Mission) (cs : List Cmd) :
    backed [] (runCmds m cs).1 = true :=
  backed_runCmds cs m []

/-! ## Observer layer requests (C7)

Embedded from `legion-frontend/src/services/ResearchDashboard-api.js` and the
deliverables service (`deliverables-api.js`): each exported function of the
research dashboard and deliverables UI is described by the request it issues
against the backend core (a `fetch` without a method option is a GET).
-/

inductive HttpMethod
  | get
  | post
deriving DecidableEq, Repr

/-- One operation against the backend core: an HTTP fetch, an EventSource
(server-sent events) subscription, or a WebSocket connection. -/
inductive CoreOp
  | httpFetch (method : HttpMethod) (path : String)
  | sseSubscribe (path : String)
  | wsConnect (path : String)
deriving DecidableEq, Repr

def apiBase : String := "http://localhost:3001/api"

def wsBase : String := "ws://localhost:3001"

def streamTasksOp (chatId : String) : CoreOp :=
  CoreOp.sseSubscribe (apiBase ++ "/research/" ++ chatId ++ "/tasks/stream")

def streamOperationsOp (chatId : String) : CoreOp :=
  CoreOp.sseSubscribe (apiBase ++ "/research/" ++ chatId ++ "/operations/stream")

def streamAgentCommsOp (chatId : String) : CoreOp :=
  CoreOp.sseSubscribe (apiBase ++ "/research/" ++ chatId ++ "/comms/stream")

def streamDeliverablesOp (chatId : String) : CoreOp :=
  CoreOp.sseSubscribe (apiBase ++ "/research/" ++ chatId ++ "/deliverables/stream")

def connectWebSocketOp (chatId : String) : CoreOp :=
  CoreOp.wsConnect (wsBase ++ "/ws/" ++ chatId)

def getMissionStatusOp (chatId : String) : CoreOp :=
  CoreOp.httpFetch HttpMethod.get (apiBase ++ "/research/" ++ chatId ++ "/status")

def getCurrentTasksOp (chatId : String) : CoreOp :=
  CoreOp.httpFetch HttpMethod.get (apiBase ++ "/research/" ++ chatId ++ "/tasks")

def getCurrentOperationsOp (chatId : String) : CoreOp :=
  CoreOp.httpFetch HttpMethod.get (apiBase ++ "/research/" ++ chatId ++ "/operations")

def getCurrentCommsOp (chatId : String) : CoreOp :=
  CoreOp.httpFetch HttpMethod.get (apiBase ++ "/research/" ++ chatId ++ "/comms")

def getCurrentDeliverablesOp (chatId : String) : CoreOp :=
  CoreOp.httpFetch HttpMethod.get (apiBase ++ "/research/" ++ chatId ++ "/deliverables")

def getDeliverablesOp (chatId : String) : CoreOp :=
  CoreOp.httpFetch HttpMethod.get (apiBase ++ "/research/" ++ chatId ++ "/deliverables")

def getDeliverableOp (chatId did : String) : CoreOp :=
  CoreOp.httpFetch HttpMethod.get
    (apiBase ++ "/research/" ++ chatId ++ "/deliverables/" ++ did)

def downloadDeliverableOp (chatId did : String) : CoreOp :=
  CoreOp.httpFetch HttpMethod.get
    (apiBase ++ "/research/" ++ chatId ++ "/deliverables/" ++ did ++ "/download")

/-- Every request the research dashboard and deliverables UI issue against the
core, over all their exported service functions. -/
def observerOps (chatId did : String) : List CoreOp :=
  [streamTasksOp chatId, streamOperationsOp chatId, streamAgentCommsOp chatId,
   streamDeliverablesOp chatId, connectWebSocketOp chatId, getMissionStatusOp chatId,
   getCurrentTasksOp chatId, getCurrentOperationsOp chatId, getCurrentCommsOp chatId,
   getCurrentDeliverablesOp chatId, getDeliverablesOp chatId,
   getDeliverableOp chatId did, downloadDeliverableOp chatId did]

/-- A read against the core: a GET fetch, a server-sent-event subscription or a
WebSocket connection; only a non-GET fetch can carry a command into the core. -/
def CoreOp.isRead : CoreOp → Bool
  | .httpFetch HttpMethod.get _ => true
  | .httpFetch HttpMethod.post _ => false
  | .sseSubscribe _ => true
  | .wsConnect _ => true

/-- C7: every operation the observer layer (research dashboard and deliverables
UI) performs against the core is a read, leaving mission state unchanged; the
layer issues no command at all, so in particular the only commands the spec
permits an observer (plan approval, plan refinement, cancellation) never occur
in it. -/
theorem observer_ops_read_only (chatId did : String) :
    ((observerOps chatId did).all CoreOp.isRead) = true
    ∧ (observerOps chatId did).filter (fun op => !op.isRead) = [] :=
  ⟨rfl, rfl⟩

/-! ## Stream unsubscription (C8)

Embedded from `streamTasks` in `ResearchDashboard-api.js`: the function opens an
EventSource and returns the cleanup closure `() => eventSource.close()`; per the
WHATWG semantics of EventSource used by the source, `close()` sets the
connection's ready state to CLOSED and does nothing else.
-/

inductive ESReadyState
  | connecting
  | openState
  | closed
deriving DecidableEq, Repr

structure EventSourceConn where
  url : String
  readyState : ESReadyState
deriving DecidableEq, Repr

/-- EventSource close(): the ready state becomes CLOSED, the rest is
untouched. -/
def esClose (s : EventSourceConn) : EventSourceConn :=
  { s with readyState := ESReadyState.closed }

/-- The EventSource streamTasks opens for a chat. -/
def streamTasksSource (chatId : String) : EventSourceConn :=
  { url := apiBase ++ "/research/" ++ chatId ++ "/tasks/stream",
    readyState := ESReadyState.connecting }

/-- The unsubscribe closure streamTasks returns. -/
def streamTasksCleanup : EventSourceConn → EventSourceConn := esClose

lemma streamTasksCleanup_iterate (k : Nat) (s : EventSourceConn) :
    streamTasksCleanup^[k + 1] s = streamTasksCleanup s := by
  induction k generalizing s with
  | zero => simp
  | succ k ih =>
    rw [Function.iterate_succ_apply, ih]
    rfl

/-- C8: invoking the cleanup function returned by streamTasks any positive
number of times has the same effect as invoking it exactly once: the underlying
stream is closed and stays closed, and nothing but the ready state changes. -/
theorem stream_cleanup_idempotent (s : EventSourceConn) (n : Nat) (hn : 1 ≤ n) :
    streamTasksCleanup^[n] s = streamTasksCleanup s
    ∧ (streamTasksCleanup^[n] s).readyState = ESReadyState.closed
    ∧ (streamTasksCleanup^[n] s).url = s.url := by
  obtain ⟨k, rfl⟩ : ∃ k, n = k + 1 := ⟨n - 1, by omega⟩
  rw [streamTasksCleanup_iterate]
  exact ⟨rfl, rfl, rfl⟩

/-- Witness for C8: closing the tasks stream twice equals closing it once and
leaves it closed. -/
theorem stream_cleanup_idempotent_witness :
    1 ≤ 2
    ∧ (streamTasksCleanup^[2] (streamTasksSource "c1")
          = streamTasksCleanup (streamTasksSource "c1")
       ∧ (streamTasksCleanup^[2] (streamTasksSource "c1")).readyState
          = ESReadyState.closed
       ∧ (streamTasksCleanup^[2] (streamTasksSource "c1")).url
          = (streamTasksSource "c1").url) :=
  ⟨by decide, stream_cleanup_idempotent (streamTasksSource "c1") 2 (by decide)⟩

/-! ## Failed-send rollback (C9)

Embedded from `handleSendMessage` in
`legion-frontend/src/components/chat/MainChatArea.jsx`: the user message is
appended optimistically with `setMessages(prev => [...prev, userMessage])`; when
`saveMessage` rejects, the handler runs
`setMessages(prev => prev.filter(msg => msg.id !== userMessage.id))`.
-/

structure ChatMsg where
  id : String
  content : String
  role : String
  timestamp : String
deriving DecidableEq, Repr

/-- The optimistic append of the user message. -/
def appendOptimistic (msgs : List ChatMsg) (m : ChatMsg) : List ChatMsg :=
  msgs ++ [m]

/-- The error-path update: keep every message whose id differs from the user
message's id. -/
def removeById (msgs : List ChatMsg) (m : ChatMsg) : List ChatMsg :=
  msgs.filter (fun x => x.id != m.id)

/-- The message list after a send whose save failed: optimistic append followed
by the error rollback. -/
def handleSendFailure (msgs : List ChatMsg) (m : ChatMsg) : List ChatMsg :=
  removeById (appendOptimistic msgs m) m

def msgDup : ChatMsg :=
  { id := "1694000000000", content := "hello", role := "user", timestamp := "t0" }

def msgOld : ChatMsg :=
  { id := "100", content := "earlier reply", role := "assistant", timestamp := "t1" }

/-- Counterexample to C9 as stated: when the displayed list already holds a
message with the same id as the new user message (ids are `Date.now()` strings,
so this happens for two sends in the same millisecond), the rollback filter also
deletes the older message, and the list is not restored to its pre-send state. -/
theorem send_rollback_not_exact :
    handleSendFailure [msgDup] msgDup = [] ∧ [msgDup] ≠ ([] : List ChatMsg) := by
  constructor
  · decide
  · decide

/-- C9 (amended): provided no already-displayed message carries the same id as
the optimistically appended user message, a failed save removes exactly that
message and restores the displayed list to its pre-send state. -/
theorem send_rollback_restores_of_fresh_id (msgs : List ChatMsg) (m : ChatMsg)
    (h : ∀ x ∈ msgs, x.id ≠ m.id) :
    handleSendFailure msgs m = msgs := by
  have h1 : msgs.filter (fun x => x.id != m.id) = msgs :=
    List.filter_eq_self.mpr (fun a ha => by simpa [bne_iff_ne] using h a ha)
  simp [handleSendFailure, removeById, appendOptimistic, List.filter_append, h1]

/-- Witness for the amended C9: with one unrelated older message displayed, the
failed send leaves exactly that message. -/
theorem send_rollback_restores_witness :
    msgOld.id ≠ msgDup.id ∧ handleSendFailure [msgOld] msgDup = [msgOld] :=
  ⟨by decide, send_rollback_restores_of_fresh_id [msgOld] msgDup (by decide)⟩

/-! ## Chat id generation (C10)

Embedded from `generateChatId` in
`legion-frontend/src/services/MainChatArea-api.js`: nine iterations of
`result += chars.charAt(Math.floor(Math.random() * chars.length))`, where
`Math.random()` yields a number in the interval [0, 1).
-/

def chatIdChars : List Char :=
  "abcdefghijklmnopqrstuvwxyzABCDEFGHIJKLMNOPQRSTUVWXYZ0123456789".toList

/-- JS String.prototype.charAt: the one-character string at the index, or the
empty string when the index is out of range. -/
def jsCharAt (cs : List Char) (i : Int) : List Char :=
  if 0 ≤ i then (cs.get? i.toNat).toList else []

/-- One loop iteration of generateChatId. -/
def chatIdStep (acc : List Char) (q : ℚ) : List Char :=
  acc ++ jsCharAt chatIdChars (Int.floor (q * (chatIdChars.length : ℚ)))

/-- generateChatId, with the nine `Math.random()` draws passed explicitly. -/
def generateChatId (rand : Fin 9 → ℚ) : String :=
  String.mk ((List.finRange 9).foldl (fun acc i => chatIdStep acc (rand i)) [])

lemma chatIdChars_length : chatIdChars.length = 62 := by decide

lemma jsCharAt_floor_spec {q : ℚ} (h0 : 0 ≤ q) (h1 : q < 1) :
    ∃ c ∈ chatIdChars,
      jsCharAt chatIdChars (Int.floor (q * (chatIdChars.length : ℚ))) = [c] := by
  have hl : (chatIdChars.length : ℚ) = 62 := by rw [chatIdChars_length]; norm_num
  have hq0 : (0 : ℚ) ≤ q * (chatIdChars.length : ℚ) :=
    mul_nonneg h0 (by rw [hl]; norm_num)
  have h0i : 0 ≤ Int.floor (q * (chatIdChars.length : ℚ)) := Int.floor_nonneg.mpr hq0
  have hlt : q * (chatIdChars.length : ℚ) < ((62 : ℤ) : ℚ) := by
    rw [hl]
    push_cast
    nlinarith
  have hil : Int.floor (q * (chatIdChars.length : ℚ)) < 62 := Int.floor_lt.mpr hlt
  have hnat : (Int.floor (q * (chatIdChars.length : ℚ))).toNat < chatIdChars.length := by
    rw [chatIdChars_length] at hil ⊢
    omega
  refine ⟨chatIdChars.get ⟨_, hnat⟩, List.get_mem _ _ _, ?_⟩
  simp [jsCharAt, h0i, List.getElem?_eq_getElem hnat, Option.toList]

lemma chatIdFold_spec (rand : Fin 9 → ℚ) (h : ∀ i, 0 ≤ rand i ∧ rand i < 1) :
    ∀ (l : List (Fin 9)) (acc : List Char),
      (l.foldl (fun acc i => chatIdStep acc (rand i)) acc).length
          = acc.length + l.length
      ∧ ∀ c ∈ l.foldl (fun acc i => chatIdStep acc (rand i)) acc,
          c ∈ acc ∨ c ∈ chatIdChars := by
  intro l
  induction l with
  | nil => intro acc; exact ⟨by simp, fun c hc => Or.inl hc⟩
  | cons i l ih =>
    intro acc
    obtain ⟨c, hc, heq⟩ := jsCharAt_floor_spec (h i).1 (h i).2
    have hstep : chatIdStep acc (rand i) = acc ++ [c] := by
      simp [chatIdStep, heq]
    rw [List.foldl_cons, hstep]
    refine ⟨?_, ?_⟩
    · rw [(ih (acc ++ [c])).1]
      simp
      omega
    · intro d hd
      rcases (ih (acc ++ [c])).2 d hd with hmem | hmem
      · rcases List.mem_append.mp hmem with hmem2 | hmem2
        · exact Or.inl hmem2
        · simp at hmem2
          exact Or.inr (hmem2 ▸ hc)
      · exact Or.inr hmem

/-- C10: every invocation of generateChatId (for any sequence of Math.random
draws in [0,1)) returns a string of exactly 9 characters, each drawn from the
62-character alphabet of lowercase letters, uppercase letters and decimal
digits. -/
theorem generateChatId_spec (rand : Fin 9 → ℚ)
    (h : ∀ i, 0 ≤ rand i ∧ rand i < 1) :
    (generateChatId rand).length = 9
    ∧ (∀ c ∈ (generateChatId rand).toList, c ∈ chatIdChars)
    ∧ chatIdChars.length = 62 := by
  obtain ⟨hlen, hmem⟩ := chatIdFold_spec rand h (List.finRange 9) []
  refine ⟨?_, ?_, chatIdChars_length⟩
  · simpa [generateChatId, String.length] using hlen
  · intro c hc
    rcases hmem c (by simpa [generateChatId, String.toList] using hc) with hx | hx
    · simp at hx
    · exact hx

def randZero : Fin 9 → ℚ := fun _ => 0

/-- Witness for C10: with every draw equal to 0 the generated id has length
9. -/
theorem generateChatId_spec_witness :
    ((0 : ℚ) ≤ 0 ∧ (0 : ℚ) < 1) ∧ (generateChatId randZero).length = 9 :=
  ⟨⟨le_refl 0, by norm_num⟩,
   (generateChatId_spec randZero
     (fun _ => ⟨by norm_num [randZero], by norm_num [randZero]⟩)).1⟩

end Legion
